import Mathlib

/-!
Shallow embedding of `src/activate.py`, a sequential gcloud billing-activation
script, together with theorems checking the specification's claims.

Modelling conventions:
* Python strings are Lean `String`s; `str.strip()` is `pyStrip` (restricted to
  the ASCII whitespace characters recognised by `Char.isWhitespace`).
* `csv.reader` output is modelled as `List (List String)` via `parseCsv`,
  which splits lines on `'\n'` and fields on `','`.  gcloud's `csv(...)`
  format quoting is not modelled; no claim distinguishes quoted fields.
* Subprocess results are `CompletedProcess` records supplied by an
  environment; `sys.exit` and uncaught exceptions are explicit outcomes.
-/

/-- Python `str.strip()` on a character list: drop leading and trailing
whitespace. -/
def stripChars (l : List Char) : List Char :=
  ((l.dropWhile Char.isWhitespace).reverse.dropWhile Char.isWhitespace).reverse

/-- Python `str.strip()` (ASCII whitespace). -/
def pyStrip (s : String) : String :=
  String.mk (stripChars s.data)

/-- `pat` occurs as a contiguous sublist of `s` (Python `pat in s` on the
character level). -/
def listInfix (pat : List Char) : List Char → Bool
  | [] => pat.isEmpty
  | c :: rest => pat.isPrefixOf (c :: rest) || listInfix pat rest

/-- Python substring containment `pat in s`. -/
def strContains (s pat : String) : Bool :=
  listInfix pat.data s.data

/-- Value of a nonempty all-digit character list, `none` otherwise. -/
def digitsToNat (cs : List Char) : Option Nat :=
  if cs ≠ [] ∧ cs.all Char.isDigit then
    some (cs.foldl (fun acc c => 10 * acc + (c.toNat - 48)) 0)
  else none

/-- Python `int(s)`: surrounding whitespace stripped, optional sign, decimal
digits; `none` models `ValueError`. -/
def pyInt (s : String) : Option Int :=
  match stripChars s.data with
  | [] => none
  | c :: rest =>
    if c = '-' then (digitsToNat rest).map (fun n => -(n : Int))
    else if c = '+' then (digitsToNat rest).map (fun n => (n : Int))
    else (digitsToNat (c :: rest)).map (fun n => (n : Int))

/-- Split a character list on a separator; like Python `str.split(sep)`, the
empty list yields one empty group. -/
def splitOnChar (sep : Char) : List Char → List (List Char)
  | [] => [[]]
  | c :: rest =>
    if c = sep then [] :: splitOnChar sep rest
    else
      match splitOnChar sep rest with
      | [] => [[c]]
      | g :: gs => (c :: g) :: gs

/-- `csv.reader` over an (already stripped) output string: one row per line,
fields split on commas.  The empty string yields no rows, as in Python. -/
def parseCsv (s : String) : List (List String) :=
  if s.data = [] then []
  else (splitOnChar '\n' s.data).map
    (fun line => (splitOnChar ',' line).map String.mk)

/-- The row filter of `find_active_billing_account` (activate.py line 40):
exactly three fields, third field the literal `"True"`, first field containing
`"Trial Billing Account"`. -/
def goodBillingRow (row : List String) : Bool :=
  row.length == 3 && row.getD 2 "" == "True" &&
    strContains (row.getD 0 "") "Trial Billing Account"

/-- The `for row in csv_reader` loop of `find_active_billing_account`
(lines 39-43): return the first matching row's (displayName, name) pair. -/
def findBillingLoop : List (List String) → Option String × Option String
  | [] => (none, none)
  | row :: rest =>
    if goodBillingRow row then (some (row.getD 0 ""), some (row.getD 1 ""))
    else findBillingLoop rest

/-- `find_active_billing_account` (lines 22-43), applied to the parsed rows of
the billing listing output; the command invocation itself is lifted into the
orchestrator model.  Empty output parses to `[]`; the first parsed row is the
header and is skipped. -/
def find_active_billing_account (rows : List (List String)) :
    Option String × Option String :=
  match rows with
  | [] => (none, none)
  | _header :: data => findBillingLoop data

example : find_active_billing_account
    [["display_name", "name", "open"],
     ["My Trial Billing Account", "billingAccounts/ABC123", "True"]] =
    (some "My Trial Billing Account", some "billingAccounts/ABC123") := by
  decide

example : pyInt " 12 " = some 12 := by decide
example : pyInt "abc" = none := by decide
example : pyInt "-3" = some (-3) := by decide
example : parseCsv "a,b\nc" = [["a", "b"], ["c"]] := by decide
example : pyStrip "  x \n" = "x" := by decide

/-- Result of `subprocess.run(..., capture_output=True, text=True)`:
the fields of a `CompletedProcess` that the script reads. -/
structure CompletedProcess where
  stdout : String
  stderr : String
  returncode : Int
deriving DecidableEq

/-- Result of `run_gcloud_command`: either the stripped stdout is returned, or
`sys.exit` terminated the process with the given code. -/
inductive RunResult where
  | ok (out : String)
  | exited (code : Nat)
deriving DecidableEq

/-- `run_gcloud_command`'s observable behaviour: its result together with the
lines it printed to `sys.stderr`. -/
structure RunOutcome where
  result : RunResult
  errs : List String
deriving DecidableEq

/-- `run_gcloud_command` (activate.py lines 6-20).  The subprocess response is
supplied as `res`; `check=True` together with a non-zero return code raises
`CalledProcessError`, which the function turns into two stderr lines and
`sys.exit(1)`.  Otherwise the stripped stdout is returned. -/
def run_gcloud_command (command : String) (res : CompletedProcess)
    (check : Bool) : RunOutcome :=
  if check = true ∧ res.returncode ≠ 0 then
    ⟨.exited 1, ["Error running command: " ++ command,
                 "Stderr: " ++ res.stderr]⟩
  else
    ⟨.ok (pyStrip res.stdout), []⟩

/-- Command strings issued by the script (shell quoting omitted). -/
def billingCmdStr : String :=
  "gcloud beta billing accounts list --format=csv(displayName,name,open)"

def getProjCmdStr : String := "gcloud config get-value project"

def projListCmdStr : String := "gcloud projects list --format=csv(projectId,name)"

def setProjCmdStr (pid : String) : String :=
  "gcloud config set project " ++ pid

def linkCmdStr (pid bid : String) : String :=
  "gcloud beta billing projects link " ++ pid ++ " --billing-account " ++ bid

/-- `get_current_project` (lines 45-50): run with `check=False`, so the
stripped stdout is returned unconditionally (the `.exited` branch is
unreachable because `check=False` never exits). -/
def get_current_project (res : CompletedProcess) : String :=
  match (run_gcloud_command getProjCmdStr res false).result with
  | .ok out => out
  | .exited _ => ""

theorem get_current_project_eq (res : CompletedProcess) :
    get_current_project res = pyStrip res.stdout := rfl

/-- Diagnostic printed on a line that `int()` rejects (line 88). -/
def invalidNumMsg : String := "Invalid input. Please enter a number."

/-- Diagnostic printed on an out-of-range selection (line 86). -/
def invalidSelMsg : String := "Invalid selection. Please try again."

/-- The `while True` prompt loop of `select_project` (lines 79-88), fed a
finite list of stdin lines.  Returns the chosen project's first field and the
stderr diagnostics emitted before it; exhausting the input models `input()`
raising `EOFError` (in an interactive session the loop would instead block for
more input). -/
def selection_loop (projects : List (List String)) :
    List String → Except String String × List String
  | [] => (Except.error "EOFError", [])
  | line :: rest =>
    match pyInt line with
    | none =>
      let r := selection_loop projects rest
      (r.1, invalidNumMsg :: r.2)
    | some k =>
      if 0 ≤ k - 1 ∧ k - 1 < (projects.length : Int) then
        (Except.ok ((projects.getD (k - 1).toNat []).headD ""), [])
      else
        let r := selection_loop projects rest
        (r.1, invalidSelMsg :: r.2)

/-- Result of `select_project`: the function may terminate the process (its
listing command runs with `check=True`), crash with an uncaught exception, or
return a value (`none` models Python `None`). -/
inductive SelectOutcome where
  | exitedP (code : Nat)
  | crashedP (msg : String)
  | value (pid : Option String)
deriving DecidableEq

/-- `select_project` (lines 52-88).  `res` is the response to the project
listing command; `inputs` the stdin lines.  The menu loop
`for i, (project_id, name) in enumerate(projects)` (line 76) unpacks each row
into exactly two variables, so a row whose field count is not 2 raises an
uncaught `ValueError` before any prompting happens. -/
def select_project (res : CompletedProcess) (inputs : List String) :
    SelectOutcome × List String :=
  match (run_gcloud_command projListCmdStr res true).result with
  | .exited c => (.exitedP c, [])
  | .ok out =>
    match parseCsv out with
    | [] => (.value none, ["No projects found."])
    | _header :: projects =>
      if projects = [] then (.value none, ["No projects found."])
      else if projects.all (fun r => r.length == 2) then
        match selection_loop projects inputs with
        | (Except.ok pid, msgs) => (.value (some pid), msgs)
        | (Except.error e, msgs) => (.crashedP e, msgs)
      else (.crashedP "ValueError: unpack", [])

example :
    select_project ⟨"projectId,name\nproj-1,Name One\nproj-2,Name Two", "", 0⟩
      ["abc", "1"] =
    (.value (some "proj-1"), [invalidNumMsg]) := by decide

example :
    select_project ⟨"projectId,name\nproj-1,Name One\nproj-2,Name Two", "", 0⟩
      ["2"] =
    (.value (some "proj-2"), []) := by decide

/-- Python truthiness test `not x` for an `Optional[str]`: `None` and the
empty string are falsy. -/
def falsyOpt : Option String → Bool
  | none => true
  | some s => s == ""

/-- Environment of one run of `main`: the subprocess response to each gcloud
invocation, in program order, plus the stdin lines. -/
structure Env where
  billing : CompletedProcess
  getProj1 : CompletedProcess
  projList : CompletedProcess
  setProj : CompletedProcess
  getProj2 : CompletedProcess
  link : CompletedProcess
  inputs : List String
deriving DecidableEq

/-- One gcloud invocation recorded in the run trace. -/
inductive Call where
  | billingList
  | configGetProject
  | projectsList
  | configSetProject (pid : String)
  | linkBilling (pid bid : String)
deriving DecidableEq

/-- How a run of `main` ends: process exit with a code (normal return of
`main` gives code 0), or an uncaught exception. -/
inductive MainOutcome where
  | finished (code : Nat)
  | crashed (msg : String)
deriving DecidableEq

/-- Observable result of a run: its outcome and the gcloud calls it made. -/
structure MainResult where
  outcome : MainOutcome
  calls : List Call
deriving DecidableEq

/-- Lines 121-128 of `main`: the final `if not project_id` guard followed by
`link_billing_account` (lines 90-93), which runs the link command with
`check=True`.  `calls0` is the trace accumulated so far. -/
def linkPhase (link : CompletedProcess) (bid pid : String)
    (calls0 : List Call) : MainResult :=
  if pid = "" then ⟨.finished 1, calls0⟩
  else
    match (run_gcloud_command (linkCmdStr pid bid) link true).result with
    | .exited c => ⟨.finished c, calls0 ++ [.linkBilling pid bid]⟩
    | .ok _ => ⟨.finished 0, calls0 ++ [.linkBilling pid bid]⟩

/-- Lines 106-128 of `main`: project resolution (current project, else
interactive selection, `gcloud config set project`, re-fetch) and linking.
`pid0` is the already-fetched current project. -/
def projectPhase (projList setProj getProj2 link : CompletedProcess)
    (inputs : List String) (bid pid0 : String) : MainResult :=
  if pid0 = "" then
    match select_project projList inputs with
    | (.exitedP c, _) =>
      ⟨.finished c, [.billingList, .configGetProject, .projectsList]⟩
    | (.crashedP e, _) =>
      ⟨.crashed e, [.billingList, .configGetProject, .projectsList]⟩
    | (.value none, _) =>
      ⟨.finished 1, [.billingList, .configGetProject, .projectsList]⟩
    | (.value (some p), _) =>
      if p = "" then
        ⟨.finished 1, [.billingList, .configGetProject, .projectsList]⟩
      else
        match (run_gcloud_command (setProjCmdStr p) setProj true).result with
        | .exited c =>
          ⟨.finished c, [.billingList, .configGetProject, .projectsList,
                         .configSetProject p]⟩
        | .ok _ =>
          linkPhase link bid (get_current_project getProj2)
            [.billingList, .configGetProject, .projectsList,
             .configSetProject p, .configGetProject]
  else
    linkPhase link bid pid0 [.billingList, .configGetProject]

namespace Activate

/-- `main` (lines 95-130): find a billing account (fatal if absent or its id
falsy), resolve the project, link.  Each subprocess response is drawn from
`env` in program order. -/
def main (env : Env) : MainResult :=
  match (run_gcloud_command billingCmdStr env.billing true).result with
  | .exited c => ⟨.finished c, [.billingList]⟩
  | .ok out =>
    let fr := find_active_billing_account (parseCsv out)
    if falsyOpt fr.2 then ⟨.finished 1, [.billingList]⟩
    else
      projectPhase env.projList env.setProj env.getProj2 env.link env.inputs
        (fr.2.getD "") (get_current_project env.getProj1)

end Activate

open Activate

example :
    main ⟨⟨"h,h,h\nMy Trial Billing Account,billingAccounts/ABC123,True", "", 0⟩,
          ⟨"my-project", "", 0⟩, ⟨"", "", 0⟩, ⟨"", "", 0⟩, ⟨"", "", 0⟩,
          ⟨"", "", 0⟩, []⟩ =
    ⟨.finished 0,
     [.billingList, .configGetProject,
      .linkBilling "my-project" "billingAccounts/ABC123"]⟩ := by decide

example :
    main ⟨⟨"h,h,h", "", 0⟩, ⟨"", "", 0⟩, ⟨"", "", 0⟩, ⟨"", "", 0⟩,
          ⟨"", "", 0⟩, ⟨"", "", 0⟩, []⟩ =
    ⟨.finished 1, [.billingList]⟩ := by decide

example :
    main ⟨⟨"h,h,h\nMy Trial Billing Account,billingAccounts/ABC123,True", "", 0⟩,
          ⟨" ", "", 1⟩, ⟨"projectId,name\nproj-1,One", "", 0⟩, ⟨"", "", 0⟩,
          ⟨"proj-1", "", 0⟩, ⟨"", "", 0⟩, ["1"]⟩ =
    ⟨.finished 0,
     [.billingList, .configGetProject, .projectsList,
      .configSetProject "proj-1", .configGetProject,
      .linkBilling "proj-1" "billingAccounts/ABC123"]⟩ := by decide

/-! ### Properties of the billing-account finder -/

/-- The scanning loop returns exactly the first row accepted by
`goodBillingRow`. -/
theorem findBillingLoop_eq_find (data : List (List String)) :
    findBillingLoop data =
      match data.find? goodBillingRow with
      | some row => (some (row.getD 0 ""), some (row.getD 1 ""))
      | none => (none, none) := by
  induction data with
  | nil => rfl
  | cons r rest ih =>
    by_cases hr : goodBillingRow r = true
    · simp [findBillingLoop, List.find?, hr]
    · simp only [Bool.not_eq_true] at hr
      simp [findBillingLoop, List.find?, hr, ih]

/-- The finder is the loop applied to the data rows (everything after the
header). -/
theorem find_active_eq_loop_tail (rows : List (List String)) :
    find_active_billing_account rows = findBillingLoop rows.tail := by
  cases rows <;> rfl

/-- C1: For every billing-account listing output,
`find_active_billing_account` returns the (display name, identifier) pair of
the first data row after the header that has exactly three fields, whose
third field equals `"True"`, and whose first field contains the substring
`"Trial Billing Account"`; if no data row satisfies all three conditions, or
the output is empty or header-only, it returns `(none, none)`. -/
theorem C1_finder_first_match (rows : List (List String)) :
    find_active_billing_account rows =
      match rows.tail.find? goodBillingRow with
      | some row => (some (row.getD 0 ""), some (row.getD 1 ""))
      | none => (none, none) := by
  rw [find_active_eq_loop_tail]
  exact findBillingLoop_eq_find rows.tail

/-- C7: The finder satisfies the spec's concrete test cases: a header plus the
single row `("My Trial Billing Account","billingAccounts/ABC123","True")`
yields that pair; the same row with open-state `"False"` yields
`(none, none)`; header-only output yields `(none, none)`. -/
theorem C7_spec_test_cases :
    find_active_billing_account
        [["display_name", "name", "open"],
         ["My Trial Billing Account", "billingAccounts/ABC123", "True"]] =
      (some "My Trial Billing Account", some "billingAccounts/ABC123") ∧
    find_active_billing_account
        [["display_name", "name", "open"],
         ["My Trial Billing Account", "billingAccounts/ABC123", "False"]] =
      (none, none) ∧
    find_active_billing_account [["display_name", "name", "open"]] =
      (none, none) :=
  ⟨by decide, by decide, by decide⟩

/-- C9: The finder returns either both components present or both absent, and
whenever both are present the display name contains
`"Trial Billing Account"` and the pair comes from a three-field data row
whose open field equals `"True"`. -/
theorem C9_finder_invariant (rows : List (List String)) :
    (find_active_billing_account rows = (none, none) ∨
      ∃ dn id, find_active_billing_account rows = (some dn, some id)) ∧
    (∀ dn id, find_active_billing_account rows = (some dn, some id) →
      strContains dn "Trial Billing Account" = true ∧
      ∃ row ∈ rows.tail, row.length = 3 ∧ row.getD 2 "" = "True" ∧
        row.getD 0 "" = dn ∧ row.getD 1 "" = id) := by
  rw [find_active_eq_loop_tail, findBillingLoop_eq_find]
  cases hf : rows.tail.find? goodBillingRow with
  | none =>
    refine ⟨Or.inl rfl, ?_⟩
    intro dn id h
    simp at h
  | some row =>
    have hmem : row ∈ rows.tail := List.mem_of_find?_eq_some hf
    have hgood : goodBillingRow row = true := List.find?_some hf
    simp only [goodBillingRow, Bool.and_eq_true, beq_iff_eq] at hgood
    refine ⟨Or.inr ⟨row.getD 0 "", row.getD 1 "", rfl⟩, ?_⟩
    intro dn id h
    simp only [Prod.mk.injEq, Option.some.injEq] at h
    refine ⟨h.1 ▸ hgood.2, row, hmem, hgood.1.1, hgood.1.2, h.1, h.2⟩

/-! ### Properties of the command runner -/

/-- A zero return code never takes the fatal branch. -/
theorem run_ok (command : String) (res : CompletedProcess) (check : Bool)
    (h : res.returncode = 0) :
    run_gcloud_command command res check = ⟨.ok (pyStrip res.stdout), []⟩ := by
  unfold run_gcloud_command
  rw [if_neg (by rintro ⟨-, hne⟩; exact hne h)]

/-- With `check=True` a non-zero return code exits with the two stderr
lines. -/
theorem run_fail (command : String) (res : CompletedProcess)
    (h : res.returncode ≠ 0) :
    run_gcloud_command command res true =
      ⟨.exited 1, ["Error running command: " ++ command,
                   "Stderr: " ++ res.stderr]⟩ := by
  unfold run_gcloud_command
  rw [if_pos ⟨rfl, h⟩]

/-- With `check=False` the stripped stdout is always returned. -/
theorem run_nocheck (command : String) (res : CompletedProcess) :
    run_gcloud_command command res false = ⟨.ok (pyStrip res.stdout), []⟩ := rfl

/-- C5: When fatal-on-error is requested and the command exits non-zero, the
runner reports the failing command line and its captured error text to stderr
and terminates the process with a non-zero exit code (`sys.exit(1)`); when
fatal-on-error is not requested, a non-zero exit never raises or terminates
and the runner returns the trimmed stdout (possibly empty). -/
theorem C5_runner_error_policy (command : String) (res : CompletedProcess) :
    (res.returncode ≠ 0 →
      run_gcloud_command command res true =
        ⟨.exited 1, ["Error running command: " ++ command,
                     "Stderr: " ++ res.stderr]⟩) ∧
    run_gcloud_command command res false =
      ⟨.ok (pyStrip res.stdout), []⟩ :=
  ⟨fun h => run_fail command res h, run_nocheck command res⟩

/-- Witness for C5 at a concrete failing command. -/
theorem C5_runner_error_policy_witness :
    run_gcloud_command "gcloud projects list" ⟨"", "boom", 1⟩ true =
      ⟨.exited 1, ["Error running command: gcloud projects list",
                   "Stderr: boom"]⟩ :=
  ((C5_runner_error_policy "gcloud projects list" ⟨"", "boom", 1⟩).1
      (by decide)).trans (by decide)

/-! ### Properties of the interactive selection loop -/

/-- A stdin line is a valid selection for an `n`-project menu: it parses as an
integer `k` with `1 ≤ k ≤ n`. -/
def validSelB (n : Nat) (line : String) : Bool :=
  match pyInt line with
  | some k => decide (1 ≤ k ∧ k ≤ (n : Int))
  | none => false

/-- The diagnostic the loop prints for an invalid line: out-of-range numbers
get the range message, unparsable lines the number message. -/
def invalidMsg (line : String) : String :=
  match pyInt line with
  | some _ => invalidSelMsg
  | none => invalidNumMsg

/-- An invalid line makes the loop emit one diagnostic and re-prompt. -/
theorem selection_loop_invalid (projects : List (List String)) (l : String)
    (rest : List String) (h : validSelB projects.length l = false) :
    selection_loop projects (l :: rest) =
      ((selection_loop projects rest).1,
        invalidMsg l :: (selection_loop projects rest).2) := by
  cases hp : pyInt l with
  | none => simp [selection_loop, hp, invalidMsg]
  | some k =>
    simp only [validSelB, hp, decide_eq_false_iff_not] at h
    have hcond : ¬(0 ≤ k - 1 ∧ k - 1 < (projects.length : Int)) := by omega
    simp [selection_loop, hp, invalidMsg, hcond]
    omega

/-- A valid line makes the loop return the selected project's first field at
once, with no further diagnostics. -/
theorem selection_loop_valid (projects : List (List String)) (l : String)
    (rest : List String) (k : Int) (hp : pyInt l = some k)
    (h1 : 1 ≤ k) (h2 : k ≤ (projects.length : Int)) :
    selection_loop projects (l :: rest) =
      (Except.ok ((projects.getD (k - 1).toNat []).headD ""), []) := by
  have hcond : 0 ≤ k - 1 ∧ k - 1 < (projects.length : Int) := by omega
  simp [selection_loop, hp, hcond]

/-- The loop skips any prefix of invalid lines, emitting one diagnostic
each, then answers the first valid line. -/
theorem selection_loop_first_valid (projects : List (List String))
    (post : List String) (line : String) (k : Int)
    (hk : pyInt line = some k) (h1 : 1 ≤ k)
    (h2 : k ≤ (projects.length : Int)) :
    ∀ pre : List String,
      (∀ l ∈ pre, validSelB projects.length l = false) →
      selection_loop projects (pre ++ line :: post) =
        (Except.ok ((projects.getD (k - 1).toNat []).headD ""),
          pre.map invalidMsg) := by
  intro pre
  induction pre with
  | nil =>
    intro _
    simpa using selection_loop_valid projects line post k hk h1 h2
  | cons a as ih =>
    intro hpre
    rw [List.cons_append,
        selection_loop_invalid projects a _ (hpre a (by simp)),
        ih (fun l hl => hpre l (by simp [hl]))]
    rfl

/-- If no supplied line is valid the loop consumes every line, emitting one
diagnostic each, and is still awaiting input (modelled as `EOFError`). -/
theorem selection_loop_all_invalid (projects : List (List String)) :
    ∀ inputs : List String,
      (∀ l ∈ inputs, validSelB projects.length l = false) →
      selection_loop projects inputs =
        (Except.error "EOFError", inputs.map invalidMsg) := by
  intro inputs
  induction inputs with
  | nil => intro _; rfl
  | cons a as ih =>
    intro hall
    rw [selection_loop_invalid projects a as (hall a (by simp)),
        ih (fun l hl => hall l (by simp [hl]))]
    rfl

/-- C2: For every project list and every sequence of stdin lines, the
selection loop emits one diagnostic per non-numeric or out-of-range line and
re-prompts without crashing; it returns exactly when a line parses as an
integer `k` with `1 ≤ k ≤ n`, and then yields the first field of the `k`-th
listed project (1-based); with no valid line it consumes all input and is
still awaiting more (no value, no `ValueError`). -/
theorem C2_selection_loop_spec (projects : List (List String))
    (inputs : List String) :
    (∀ pre line post k, inputs = pre ++ line :: post →
      (∀ l ∈ pre, validSelB projects.length l = false) →
      pyInt line = some k → 1 ≤ k → k ≤ (projects.length : Int) →
      selection_loop projects inputs =
        (Except.ok ((projects.getD (k - 1).toNat []).headD ""),
          pre.map invalidMsg)) ∧
    ((∀ l ∈ inputs, validSelB projects.length l = false) →
      selection_loop projects inputs =
        (Except.error "EOFError", inputs.map invalidMsg)) := by
  constructor
  · intro pre line post k hsplit hpre hk h1 h2
    subst hsplit
    exact selection_loop_first_valid projects post line k hk h1 h2 pre hpre
  · exact selection_loop_all_invalid projects inputs

/-- Witness for C2 at the spec's example: `"abc"` then `"1"` against the
two-project listing re-prompts once and returns `"proj-1"`. -/
theorem C2_selection_loop_spec_witness :
    selection_loop [["proj-1", "Name One"], ["proj-2", "Name Two"]]
        ["abc", "1"] =
      (Except.ok "proj-1", ["Invalid input. Please enter a number."]) :=
  ((C2_selection_loop_spec [["proj-1", "Name One"], ["proj-2", "Name Two"]]
      ["abc", "1"]).1 ["abc"] "1" [] 1 rfl (by decide) (by decide) (by decide)
      (by decide)).trans (by rfl)

/-! ### Malformed rows (C3) -/

/-- A row with a field count other than 3 never matches the billing filter. -/
theorem goodBillingRow_of_badLength (bad : List String)
    (hbad : bad.length ≠ 3) : goodBillingRow bad = false := by
  unfold goodBillingRow
  cases h3 : bad.length == 3 with
  | false => simp
  | true =>
    simp only [beq_iff_eq] at h3
    exact absurd h3 hbad

/-- The billing loop skips a malformed row wherever it occurs. -/
theorem findBillingLoop_skips (pre post : List (List String))
    (bad : List String) (hbad : bad.length ≠ 3) :
    findBillingLoop (pre ++ bad :: post) = findBillingLoop (pre ++ post) := by
  induction pre with
  | nil => simp [findBillingLoop, goodBillingRow_of_badLength bad hbad]
  | cons r rs ih =>
    simp only [List.cons_append, findBillingLoop, List.append_eq]
    rw [ih]

/-- A project listing containing a row whose field count is not 2 makes
`select_project` raise an uncaught `ValueError` from tuple unpacking. -/
theorem select_project_crashes (res : CompletedProcess) (inputs : List String)
    (hrc : res.returncode = 0)
    (hbadrow : ∃ r ∈ (parseCsv (pyStrip res.stdout)).tail, r.length ≠ 2) :
    ∃ e, (select_project res inputs).1 = SelectOutcome.crashedP e := by
  obtain ⟨r, hr, hlen⟩ := hbadrow
  cases hcsv : parseCsv (pyStrip res.stdout) with
  | nil => rw [hcsv] at hr; simp at hr
  | cons hd projects =>
    rw [hcsv] at hr
    simp only [List.tail_cons] at hr
    have hne : projects ≠ [] := by
      intro h
      subst h
      simp at hr
    have hall : projects.all (fun row => row.length == 2) = false := by
      rw [List.all_eq_false]
      exact ⟨r, hr, by simp [hlen]⟩
    refine ⟨"ValueError: unpack", ?_⟩
    simp [select_project, run_ok _ _ _ hrc, hcsv, hne, hall]

/-- Witness for C9 at the spec's concrete listing. -/
theorem C9_finder_invariant_witness :
    strContains "My Trial Billing Account" "Trial Billing Account" = true ∧
    ∃ row ∈ [["My Trial Billing Account", "billingAccounts/ABC123", "True"]],
      row.length = 3 ∧ row.getD 2 "" = "True" ∧
      row.getD 0 "" = "My Trial Billing Account" ∧
      row.getD 1 "" = "billingAccounts/ABC123" :=
  (C9_finder_invariant
      [["display_name", "name", "open"],
       ["My Trial Billing Account", "billingAccounts/ABC123", "True"]]).2
    "My Trial Billing Account" "billingAccounts/ABC123" (by decide)

/-- C3 counterexample: the claim says a malformed data row is silently
skipped with no error in the project listing too; but on a project listing
with the three-field row `a,b,c`, `select_project` raises an uncaught
`ValueError` (tuple unpacking at the menu loop) instead of skipping it. -/
theorem C3_counterexample :
    (select_project ⟨"projectId,name\na,b,c\np2,n2", "", 0⟩ ["1"]).1 =
      SelectOutcome.crashedP "ValueError: unpack" := by decide

/-- C3 (amended): malformed rows are silently skipped in the billing-account
listing only — a data row whose field count is not 3 never changes the
finder's result; in the project listing, a data row whose field count is
not 2 is not skipped: it makes `select_project` raise an uncaught unpacking
error. -/
theorem C3_amended_malformed_rows (pre post : List (List String))
    (bad : List String) (hbad : bad.length ≠ 3) (header : List String) :
    find_active_billing_account (header :: (pre ++ bad :: post)) =
      find_active_billing_account (header :: (pre ++ post)) ∧
    (∀ (res : CompletedProcess) (inputs : List String), res.returncode = 0 →
      (∃ r ∈ (parseCsv (pyStrip res.stdout)).tail, r.length ≠ 2) →
      ∃ e, (select_project res inputs).1 = SelectOutcome.crashedP e) :=
  ⟨findBillingLoop_skips pre post bad hbad,
   fun res inputs hrc hbadrow => select_project_crashes res inputs hrc hbadrow⟩

/-- Witness for the amended C3 at concrete listings. -/
theorem C3_amended_malformed_rows_witness :
    find_active_billing_account
        [["h", "h", "h"], ["x"],
         ["My Trial Billing Account", "billingAccounts/ABC123", "True"]] =
      find_active_billing_account
        [["h", "h", "h"],
         ["My Trial Billing Account", "billingAccounts/ABC123", "True"]] ∧
    ∃ e, (select_project ⟨"projectId,name\na,b,c\np2,n2", "", 0⟩ ["1"]).1 =
      SelectOutcome.crashedP e := by
  have h := C3_amended_malformed_rows []
      [["My Trial Billing Account", "billingAccounts/ABC123", "True"]]
      ["x"] (by decide) ["h", "h", "h"]
  exact ⟨h.1, h.2 ⟨"projectId,name\na,b,c\np2,n2", "", 0⟩ ["1"] rfl (by decide)⟩

/-! ### Properties of the orchestrator -/

/-- Recognises link invocations in a run trace. -/
def isLinkCall : Call → Bool
  | .linkBilling _ _ => true
  | _ => false

/-- Recognises `gcloud config set project` invocations in a run trace. -/
def isSetCall : Call → Bool
  | .configSetProject _ => true
  | _ => false

/-- C4: If a matching billing account is found (billing listing command
succeeds and the finder returns a truthy identifier) and the current-project
query returns a non-empty identifier, `main` invokes the linking command
exactly once, with that project identifier and that billing-account
identifier, and exits 0; if the linking command fails, it exits 1 and
performs no further action after the failure (the trace ends at the link
call). -/
theorem C4_link_exactly_once (env : Env) (dn bid : String)
    (hb : env.billing.returncode = 0)
    (hfind : find_active_billing_account (parseCsv (pyStrip env.billing.stdout)) =
      (some dn, some bid))
    (hbid : bid ≠ "")
    (hproj : get_current_project env.getProj1 ≠ "") :
    Activate.main env =
      ⟨(if env.link.returncode = 0 then .finished 0 else .finished 1),
       [.billingList, .configGetProject,
        .linkBilling (get_current_project env.getProj1) bid]⟩ ∧
    (Activate.main env).calls.filter isLinkCall =
      [.linkBilling (get_current_project env.getProj1) bid] := by
  have hmain : Activate.main env =
      ⟨(if env.link.returncode = 0 then .finished 0 else .finished 1),
       [.billingList, .configGetProject,
        .linkBilling (get_current_project env.getProj1) bid]⟩ := by
    by_cases hl : env.link.returncode = 0
    · simp [Activate.main, run_ok _ _ _ hb, hfind, falsyOpt, hbid,
            projectPhase, hproj, linkPhase, run_ok _ _ _ hl, hl]
    · simp [Activate.main, run_ok _ _ _ hb, hfind, falsyOpt, hbid,
            projectPhase, hproj, linkPhase, run_fail _ _ hl, hl]
  refine ⟨hmain, ?_⟩
  rw [hmain]
  simp [isLinkCall]

/-- Witness for C4: concrete run where the account is found, the project is
already configured, and linking succeeds. -/
theorem C4_link_exactly_once_witness :
    Activate.main
        ⟨⟨"h,h,h\nMy Trial Billing Account,billingAccounts/ABC123,True", "", 0⟩,
         ⟨"my-project", "", 0⟩, ⟨"", "", 0⟩, ⟨"", "", 0⟩, ⟨"", "", 0⟩,
         ⟨"", "", 0⟩, []⟩ =
      ⟨.finished 0,
       [.billingList, .configGetProject,
        .linkBilling "my-project" "billingAccounts/ABC123"]⟩ :=
  ((C4_link_exactly_once
      ⟨⟨"h,h,h\nMy Trial Billing Account,billingAccounts/ABC123,True", "", 0⟩,
       ⟨"my-project", "", 0⟩, ⟨"", "", 0⟩, ⟨"", "", 0⟩, ⟨"", "", 0⟩,
       ⟨"", "", 0⟩, []⟩
      "My Trial Billing Account" "billingAccounts/ABC123"
      rfl (by decide) (by decide) (by decide)).1).trans (by decide)

/-- C6: If the project listing yields no data rows, `select_project` reports
`No projects found.` to stderr and returns `None`, and `main` then exits with
code 1 (given a previously found billing account and no configured
project). -/
theorem C6_no_projects_fatal (env : Env) (dn bid : String)
    (hb : env.billing.returncode = 0)
    (hfind : find_active_billing_account (parseCsv (pyStrip env.billing.stdout)) =
      (some dn, some bid))
    (hbid : bid ≠ "")
    (hproj : get_current_project env.getProj1 = "")
    (hpl : env.projList.returncode = 0)
    (hrows : (parseCsv (pyStrip env.projList.stdout)).tail = []) :
    select_project env.projList env.inputs =
      (.value none, ["No projects found."]) ∧
    Activate.main env =
      ⟨.finished 1, [.billingList, .configGetProject, .projectsList]⟩ := by
  have hsel : select_project env.projList env.inputs =
      (.value none, ["No projects found."]) := by
    cases hcsv : parseCsv (pyStrip env.projList.stdout) with
    | nil => simp [select_project, run_ok _ _ _ hpl, hcsv]
    | cons hd tl =>
      have htl : tl = [] := by
        rw [hcsv] at hrows
        simpa using hrows
      subst htl
      simp [select_project, run_ok _ _ _ hpl, hcsv]
  refine ⟨hsel, ?_⟩
  simp [Activate.main, run_ok _ _ _ hb, hfind, falsyOpt, hbid,
        projectPhase, hproj, hsel]

/-- Witness for C6: concrete run with a header-only project listing. -/
theorem C6_no_projects_fatal_witness :
    select_project ⟨"projectId,name", "", 0⟩ [] =
      (.value none, ["No projects found."]) ∧
    Activate.main
        ⟨⟨"h,h,h\nMy Trial Billing Account,billingAccounts/ABC123,True", "", 0⟩,
         ⟨"", "", 1⟩, ⟨"projectId,name", "", 0⟩, ⟨"", "", 0⟩, ⟨"", "", 0⟩,
         ⟨"", "", 0⟩, []⟩ =
      ⟨.finished 1, [.billingList, .configGetProject, .projectsList]⟩ :=
  C6_no_projects_fatal
    ⟨⟨"h,h,h\nMy Trial Billing Account,billingAccounts/ABC123,True", "", 0⟩,
     ⟨"", "", 1⟩, ⟨"projectId,name", "", 0⟩, ⟨"", "", 0⟩, ⟨"", "", 0⟩,
     ⟨"", "", 0⟩, []⟩
    "My Trial Billing Account" "billingAccounts/ABC123"
    rfl (by decide) (by decide) (by decide) rfl (by decide)

/-- C8: In every run, `gcloud config set project` is invoked only with a
non-absent, non-empty project identifier (an absent selection can never reach
it), and the mutating action occurs at most once per run. -/
theorem C8_set_project_guarded (env : Env) :
    (∀ pid, Call.configSetProject pid ∈ (Activate.main env).calls →
      pid ≠ "") ∧
    ((Activate.main env).calls.filter isSetCall).length ≤ 1 := by
  unfold Activate.main projectPhase linkPhase
  repeat' split
  all_goals try simp_all [isSetCall]
  all_goals try (split <;> try simp_all [isSetCall])
  all_goals try (split <;> try simp_all [isSetCall])

/-- Witness for C8: a run that does reach the set-project command. -/
theorem C8_set_project_guarded_witness :
    "proj-1" ≠ "" ∧
    ((Activate.main
        ⟨⟨"h,h,h\nMy Trial Billing Account,billingAccounts/ABC123,True", "", 0⟩,
         ⟨" ", "", 1⟩, ⟨"projectId,name\nproj-1,One", "", 0⟩, ⟨"", "", 0⟩,
         ⟨"proj-1", "", 0⟩, ⟨"", "", 0⟩, ["1"]⟩).calls.filter isSetCall).length ≤ 1 :=
  ⟨(C8_set_project_guarded
      ⟨⟨"h,h,h\nMy Trial Billing Account,billingAccounts/ABC123,True", "", 0⟩,
       ⟨" ", "", 1⟩, ⟨"projectId,name\nproj-1,One", "", 0⟩, ⟨"", "", 0⟩,
       ⟨"proj-1", "", 0⟩, ⟨"", "", 0⟩, ["1"]⟩).1 "proj-1" (by decide),
   (C8_set_project_guarded
      ⟨⟨"h,h,h\nMy Trial Billing Account,billingAccounts/ABC123,True", "", 0⟩,
       ⟨" ", "", 1⟩, ⟨"projectId,name\nproj-1,One", "", 0⟩, ⟨"", "", 0⟩,
       ⟨"proj-1", "", 0⟩, ⟨"", "", 0⟩, ["1"]⟩).2⟩

/-- Stripping an all-whitespace string yields the empty string. -/
theorem pyStrip_all_whitespace (s : String)
    (hws : ∀ c ∈ s.data, c.isWhitespace) : pyStrip s = "" := by
  unfold pyStrip stripChars
  rw [List.dropWhile_eq_nil_iff.mpr hws]
  rfl

/-- C10: Because the runner trims captured stdout, a current-project query
whose output is only whitespace is treated as absence of a configured project:
`get_current_project` yields `""`, the whole run behaves exactly as if the
output were empty, and (when a billing account was found) the orchestrator
proceeds to the interactive project listing. -/
theorem C10_whitespace_current_project (env : Env)
    (hws : ∀ c ∈ env.getProj1.stdout.data, c.isWhitespace) :
    get_current_project env.getProj1 = "" ∧
    Activate.main env =
      Activate.main ⟨env.billing,
        ⟨"", env.getProj1.stderr, env.getProj1.returncode⟩,
        env.projList, env.setProj, env.getProj2, env.link, env.inputs⟩ ∧
    (∀ dn bid, env.billing.returncode = 0 →
      find_active_billing_account (parseCsv (pyStrip env.billing.stdout)) =
        (some dn, some bid) →
      bid ≠ "" →
      Call.projectsList ∈ (Activate.main env).calls) := by
  have h1 : get_current_project env.getProj1 = "" := by
    rw [get_current_project_eq]
    exact pyStrip_all_whitespace _ hws
  have h2 : get_current_project
      (⟨"", env.getProj1.stderr, env.getProj1.returncode⟩ : CompletedProcess) =
      "" := rfl
  refine ⟨h1, ?_, ?_⟩
  · simp only [Activate.main, h1, h2]
  · intro dn bid hb hfind hbid
    simp only [Activate.main, run_ok _ _ _ hb, hfind, h1]
    simp only [falsyOpt, Option.getD_some]
    rw [if_neg (by simp [hbid])]
    unfold projectPhase linkPhase
    rw [if_pos rfl]
    repeat' split
    all_goals simp_all

/-- Witness for C10: tab-and-space output behaves as no configured project. -/
theorem C10_whitespace_current_project_witness :
    get_current_project ⟨" \t ", "", 1⟩ = "" ∧
    Call.projectsList ∈
      (Activate.main
        ⟨⟨"h,h,h\nMy Trial Billing Account,billingAccounts/ABC123,True", "", 0⟩,
         ⟨" \t ", "", 1⟩, ⟨"projectId,name\nproj-1,One", "", 0⟩, ⟨"", "", 0⟩,
         ⟨"proj-1", "", 0⟩, ⟨"", "", 0⟩, ["1"]⟩).calls :=
  ⟨(C10_whitespace_current_project
      ⟨⟨"h,h,h\nMy Trial Billing Account,billingAccounts/ABC123,True", "", 0⟩,
       ⟨" \t ", "", 1⟩, ⟨"projectId,name\nproj-1,One", "", 0⟩, ⟨"", "", 0⟩,
       ⟨"proj-1", "", 0⟩, ⟨"", "", 0⟩, ["1"]⟩ (by decide)).1,
   (C10_whitespace_current_project
      ⟨⟨"h,h,h\nMy Trial Billing Account,billingAccounts/ABC123,True", "", 0⟩,
       ⟨" \t ", "", 1⟩, ⟨"projectId,name\nproj-1,One", "", 0⟩, ⟨"", "", 0⟩,
       ⟨"proj-1", "", 0⟩, ⟨"", "", 0⟩, ["1"]⟩ (by decide)).2.2
     "My Trial Billing Account" "billingAccounts/ABC123"
     rfl (by decide) (by decide)⟩
